import Mathlib

/-!
Shallow embedding of the deep-learning-algorithm-implementation inference
engine (C++ sources under `Layers/`, `Models/`, `C_C++/Layers/`), together
with theorems settling the frozen claims about its specification.

Modelling conventions:
* `float` values are embedded as exact rationals (`ℚ`); all float arithmetic
  appearing in the sources (addition, multiplication, comparison) is exact
  rational arithmetic.  The one float→int conversion in the sources
  (`MaxPooling2DLayer::forward`) is modelled as C truncation toward zero.
* A memory buffer (`float *`) is a total map `Nat → ℚ`; a store through the
  pointer is a pointwise functional update (`upd`).
* `for`-loops over `[0, n)` are folds over `List.range n`, in source order.
* `uint32_t` sizes and indices are `Nat`; where the sources can wrap a
  `uint32_t` product (the workspace check in `Sequential::Sequential`) the
  wrap `% 2^32` is kept explicitly.
-/

/-- Pointwise store: the buffer after the write `buf[i] = v`. -/
def upd (buf : Nat → ℚ) (i : Nat) (v : ℚ) : Nat → ℚ :=
  fun k => if k = i then v else buf k

/-- `Linear` (Layers/src/layers.h): the output-major Dense variant.
Fields mirror the C++ members; `weights` and `bias` are the borrowed
parameter views. -/
structure Linear where
  output_size : Nat
  input_size : Nat
  weights : Nat → ℚ
  bias : Nat → ℚ

/-- `Linear::forward` (Layers/src/layers.cpp:38-46): for each output `j`,
`output[j] = 0`, then `output[j] += weights[j*input_size + i] * input[i]`
for `i` in `[0, input_size)`, then `output[j] += bias[j]`.  The running
accumulation into `output[j]` is carried in the fold accumulator; the final
value is stored once, which is observationally the same buffer. -/
def Linear.forward (L : Linear) (input output : Nat → ℚ) : Nat → ℚ :=
  (List.range L.output_size).foldl
    (fun buf j => upd buf j
      ((List.range L.input_size).foldl
        (fun acc i => acc + L.weights (j * L.input_size + i) * input i) 0
       + L.bias j))
    output

/-- `FullyConnected` (C_C++/Layers/src/layers.cpp): the input-major Dense
variant instantiated by the decoder in `Models/src/models.cpp`. -/
structure FullyConnected where
  input_size : Nat
  output_size : Nat
  weights : Nat → ℚ
  bias : Nat → ℚ

/-- `FullyConnected::forward` (C_C++/Layers/src/layers.cpp:38-46): for each
output `j`, `output[j] += input[i] * weights[i*output_size + j]` over `i`,
then `+= bias[j]`.  Note the input-major weight indexing. -/
def FullyConnected.forward (F : FullyConnected) (input output : Nat → ℚ) : Nat → ℚ :=
  (List.range F.output_size).foldl
    (fun buf j => upd buf j
      ((List.range F.input_size).foldl
        (fun acc i => acc + input i * F.weights (i * F.output_size + j)) 0
       + F.bias j))
    output

/-- `ReLU` (Layers/src/layers.h); the `Relu` variant in C_C++ has the same
fields and the same `forward` body. -/
structure ReLU where
  input_dim : Nat
  input_shape : Nat → Nat

/-- The element count computed by `ReLU::forward` (Layers/src/layers.cpp:68-73):
`input_size += input_shape[i]` over the dimensions — the SUM of the declared
dims, exactly as in the source. -/
def ReLU.sizeSum (R : ReLU) : Nat :=
  (List.range R.input_dim).foldl (fun acc i => acc + R.input_shape i) 0

/-- `ReLU::forward` (Layers/src/layers.cpp:67-79):
`output[i] = (input[i] > 0) ? input[i] : 0` for `i` in `[0, sizeSum)`. -/
def ReLU.forward (R : ReLU) (input output : Nat → ℚ) : Nat → ℚ :=
  (List.range R.sizeSum).foldl
    (fun buf i => upd buf i (if input i > 0 then input i else 0))
    output

/-- Folding `acc + f i` over `[0, n)` from `a` is `a` plus the finite sum. -/
theorem foldl_add_range (f : Nat → ℚ) (n : Nat) : ∀ a : ℚ,
    (List.range n).foldl (fun acc i => acc + f i) a
      = a + ∑ i in Finset.range n, f i := by
  induction n with
  | zero => intro a; simp
  | succ n ih =>
    intro a
    rw [List.range_succ, List.foldl_append, ih a, Finset.sum_range_succ]
    simp [add_assoc]

/-- A loop that stores `g k` at index `k` for `k` in `[0, n)` yields a buffer
that is `g` below `n` and the initial buffer at or above `n`. -/
theorem foldl_upd_range (g : Nat → ℚ) (n : Nat) : ∀ (buf : Nat → ℚ) (j : Nat),
    (List.range n).foldl (fun b k => upd b k (g k)) buf j
      = if j < n then g j else buf j := by
  induction n with
  | zero => intro buf j; simp
  | succ n ih =>
    intro buf j
    rw [List.range_succ, List.foldl_append]
    simp only [List.foldl_cons, List.foldl_nil]
    show (if j = n then g n
          else (List.range n).foldl (fun b k => upd b k (g k)) buf j) = _
    by_cases hj : j = n
    · subst hj; simp
    · rw [if_neg hj, ih buf j]
      by_cases h2 : j < n
      · rw [if_pos h2, if_pos (Nat.lt_succ_of_lt h2)]
      · rw [if_neg h2, if_neg (by omega)]

/-- The ReLU layer used to exhibit the sum-of-dims defect: `input_dim = 2`,
declared shape `[2, 3]` (product 6, sum 5). -/
def reluC1 : ReLU :=
  { input_dim := 2
    input_shape := fun i => if i = 0 then 2 else 3 }

/-- Claim C1: the spec says `ReLU::forward` writes
`output[k] = max(0, input[k])` for every `k` below the PRODUCT of the
declared dims.  The code instead loops up to the SUM of the dims: with
shape `[2, 3]` (product 6, sum 5) and all-ones input, index 4 is written
but index 5 keeps its initial value `-1` instead of the claimed
`max(0, 1) = 1`. -/
theorem c1_relu_counts_sum_of_dims :
    reluC1.sizeSum = 5 ∧
    reluC1.forward (fun _ => 1) (fun _ => -1) 4 = 1 ∧
    reluC1.forward (fun _ => 1) (fun _ => -1) 5 = -1 := by
  refine ⟨rfl, ?_, ?_⟩ <;> decide

/-- Claim C2 (amended): the output-major layout holds for the `Linear`
variant: `output[j] = bias[j] + Σ_i weights[j*input_size + i] * input[i]`
for every `j < output_size`. -/
theorem c2_linear_forward_output_major (L : Linear) (input output : Nat → ℚ)
    (j : Nat) (hj : j < L.output_size) :
    L.forward input output j
      = L.bias j
        + ∑ i in Finset.range L.input_size,
            L.weights (j * L.input_size + i) * input i := by
  have h1 := foldl_upd_range
    (fun j => (List.range L.input_size).foldl
        (fun acc i => acc + L.weights (j * L.input_size + i) * input i) 0
      + L.bias j)
    L.output_size output j
  have h2 := foldl_add_range
    (fun i => L.weights (j * L.input_size + i) * input i) L.input_size 0
  unfold Linear.forward
  rw [h1, if_pos hj, h2]
  ring

/-- The Dense example from the spec, in the `Linear` (output-major) variant:
weights `[1,2,3,4]`, bias `[0,1]`. -/
def linC2 : Linear :=
  { output_size := 2
    input_size := 2
    weights := fun t => if t = 0 then 1 else if t = 1 then 2 else if t = 2 then 3 else 4
    bias := fun j => if j = 0 then 0 else 1 }

/-- The same weights and bias loaded into the `FullyConnected` (input-major)
variant. -/
def fcC2 : FullyConnected :=
  { input_size := 2
    output_size := 2
    weights := fun t => if t = 0 then 1 else if t = 1 then 2 else if t = 2 then 3 else 4
    bias := fun j => if j = 0 then 0 else 1 }

/-- Witness for C2: the `Linear` variant on the spec's example
(`input = [1,1]`) matches the output-major formula at `j = 0`. -/
theorem c2_linear_forward_output_major_witness :
    0 < linC2.output_size ∧
    linC2.forward (fun _ => 1) (fun _ => 0) 0
      = linC2.bias 0
        + ∑ i in Finset.range linC2.input_size,
            linC2.weights (0 * linC2.input_size + i) * (fun _ : Nat => (1 : ℚ)) i :=
  ⟨by decide, c2_linear_forward_output_major linC2 (fun _ => 1) (fun _ => 0) 0 (by decide)⟩

/-- Counterexample for C2 as stated: the claim quantifies over every Dense
layer, but the `FullyConnected` variant is input-major: on the spec's own
example (weights `[[1,2],[3,4]]`, bias `[0,1]`, input `[1,1]`) it produces
`[4, 7]`, not the claimed `[3, 8]`. -/
theorem c2_fullyconnected_is_input_major :
    fcC2.forward (fun _ => 1) (fun _ => 0) 0 = 4 ∧
    fcC2.forward (fun _ => 1) (fun _ => 0) 1 = 7 ∧
    fcC2.forward (fun _ => 1) (fun _ => 0) 0 ≠ 3 := by
  refine ⟨?_, ?_, ?_⟩ <;>
    norm_num [FullyConnected.forward, fcC2, List.range_succ, List.foldl_append, upd]

/-- `PADDING_VALID` (dlai.h). -/
def PADDING_VALID : Nat := 0

/-- `PADDING_SAME` (dlai.h). -/
def PADDING_SAME : Nat := 1

/-- `Convolutional2DLayer` (Layers/src/layers.h).  The output spatial sizes
computed in the constructor (layers.cpp:110-111) are the derived functions
below; dimensions are assumed with `kernel ≤ input` per axis (the sources
use `uint32_t` subtraction, which wraps otherwise — no claim touches that
corner). -/
structure Conv2D where
  input_channel_size : Nat
  input_row_size : Nat
  input_col_size : Nat
  output_channel_size : Nat
  kernel_row_size : Nat
  kernel_col_size : Nat
  stride_row : Nat
  stride_col : Nat
  padding : Nat
  kernels : Nat → ℚ
  bias : Nat → ℚ

/-- `this->output_row_size = ((input_row_size - kernel_row_size) / stride_row) + 1`. -/
def Conv2D.output_row_size (C : Conv2D) : Nat :=
  (C.input_row_size - C.kernel_row_size) / C.stride_row + 1

/-- `this->output_col_size = ((input_col_size - kernel_col_size) / stride_col) + 1`. -/
def Conv2D.output_col_size (C : Conv2D) : Nat :=
  (C.input_col_size - C.kernel_col_size) / C.stride_col + 1

/-- Flat output index `n * out_rows * out_cols + m * out_cols + l`
(layers.cpp:135-137). -/
def Conv2D.outIdx (C : Conv2D) (n m l : Nat) : Nat :=
  n * C.output_row_size * C.output_col_size + m * C.output_col_size + l

/-- Flat input index `k * in_rows * in_cols + r * in_cols + c`
(layers.cpp:147-149). -/
def Conv2D.inIdx (C : Conv2D) (k r c : Nat) : Nat :=
  k * C.input_row_size * C.input_col_size + r * C.input_col_size + c

/-- Flat kernel index (layers.cpp:150-153). -/
def Conv2D.kerIdx (C : Conv2D) (n k j i : Nat) : Nat :=
  n * C.input_channel_size * C.kernel_row_size * C.kernel_col_size
    + k * C.kernel_row_size * C.kernel_col_size
    + j * C.kernel_col_size + i

/-- The accumulation loops of `Convolutional2DLayer::forward`
(layers.cpp:140-156): starting from the `output[...] = 0` initialisation,
add `input[k, j + m*stride_row, i + l*stride_col] * kernel[n,k,j,i]` over
channel `k`, kernel row `j`, kernel col `i`.  The running value lives in
`output[outIdx n m l]`, carried here in the fold accumulator.  No bias term
appears anywhere in the source loop. -/
def Conv2D.accVal (C : Conv2D) (input : Nat → ℚ) (n m l : Nat) : ℚ :=
  (List.range C.input_channel_size).foldl (fun a k =>
    (List.range C.kernel_row_size).foldl (fun a j =>
      (List.range C.kernel_col_size).foldl (fun a i =>
        a + input (C.inIdx k (j + m * C.stride_row) (i + l * C.stride_col))
              * C.kernels (C.kerIdx n k j i)) a) a) 0

/-- `Convolutional2DLayer::forward` (layers.cpp:122-166): a `switch` on the
padding mode.  `PADDING_VALID` runs the output-element loops;
`PADDING_SAME` is an empty `case` (a `TODO` comment and `break`), and any
other value matches no case — both leave the output buffer untouched. -/
def Conv2D.forward (C : Conv2D) (input output : Nat → ℚ) : Nat → ℚ :=
  if C.padding = PADDING_VALID then
    (List.range C.output_channel_size).foldl (fun buf n =>
      (List.range C.output_row_size).foldl (fun buf m =>
        (List.range C.output_col_size).foldl (fun buf l =>
          upd buf (C.outIdx n m l) (C.accVal input n m l)) buf) buf) output
  else output

/-- Concrete convolution exhibiting the missing bias: one channel, 1×1
input, one 1×1 kernel with weight 2, bias 3, stride 1, valid padding. -/
def convC4 : Conv2D :=
  { input_channel_size := 1
    input_row_size := 1
    input_col_size := 1
    output_channel_size := 1
    kernel_row_size := 1
    kernel_col_size := 1
    stride_row := 1
    stride_col := 1
    padding := PADDING_VALID
    kernels := fun _ => 2
    bias := fun _ => 3 }

/-- Claim C4: the spec requires
`output[n,m,l] = bias[n] + Σ input·kernel`.  The source's forward loop
never reads `bias`: on a 1×1 input of value 5 with kernel weight 2 and
bias 3 the code yields `5 * 2 = 10`, not the claimed `3 + 10 = 13`. -/
theorem c4_conv_bias_never_added :
    convC4.forward (fun _ => 5) (fun _ => 0) 0 = 10 ∧
    convC4.bias 0 = 3 ∧
    convC4.forward (fun _ => 5) (fun _ => 0) 0 ≠ convC4.bias 0 + 10 := by
  refine ⟨?_, ?_, ?_⟩ <;>
    norm_num [Conv2D.forward, Conv2D.accVal, Conv2D.outIdx, Conv2D.inIdx,
      Conv2D.kerIdx, Conv2D.output_row_size, Conv2D.output_col_size,
      convC4, PADDING_VALID, List.range_succ, List.foldl_append, upd]

/-- Claim C7: for every `Convolutional2DLayer` whose padding mode is
`PADDING_SAME`, `forward` is a silent no-op: the output buffer is returned
untouched.  Nothing fails at decode time — the decoder
(`Sequential::Sequential`) has no convolution tag at all and performs no
padding check — and no `UnsupportedPadding` error exists anywhere in the
sources. -/
theorem c7_same_padding_silent_noop (C : Conv2D) (input output : Nat → ℚ)
    (h : C.padding = PADDING_SAME) :
    C.forward input output = output := by
  unfold Conv2D.forward
  rw [h]
  simp [PADDING_SAME, PADDING_VALID]

/-- A `PADDING_SAME` convolution for the C7 witness. -/
def convC7 : Conv2D :=
  { input_channel_size := 1
    input_row_size := 4
    input_col_size := 4
    output_channel_size := 1
    kernel_row_size := 3
    kernel_col_size := 3
    stride_row := 1
    stride_col := 1
    padding := PADDING_SAME
    kernels := fun _ => 1
    bias := fun _ => 0 }

/-- Witness for C7: the concrete same-padding layer leaves a buffer of
`-5`s exactly as it was. -/
theorem c7_same_padding_silent_noop_witness :
    convC7.padding = PADDING_SAME ∧
    convC7.forward (fun _ => 9) (fun _ => -5) = (fun _ => -5) :=
  ⟨rfl, c7_same_padding_silent_noop convC7 (fun _ => 9) (fun _ => -5) rfl⟩

/-- `FLT_MAX` (float.h): `(2 - 2^-23) * 2^127 = 2^128 - 2^104`, exactly. -/
def fltMax : ℚ := 340282346638528859811704183484516925440

/-- C float→int conversion: truncation toward zero. -/
def ctrunc (q : ℚ) : ℤ :=
  if 0 ≤ q then ⌊q⌋ else ⌈q⌉

/-- `MaxPooling2DLayer` (Layers/src/layers.h). -/
structure MaxPool2D where
  input_channel_size : Nat
  input_row_size : Nat
  input_col_size : Nat
  pool_row : Nat
  pool_col : Nat
  stride_row : Nat
  stride_col : Nat
  padding : Nat

/-- `this->output_row_size = ((input_row_size - pool_row) / stride_row) + 1`. -/
def MaxPool2D.output_row_size (P : MaxPool2D) : Nat :=
  (P.input_row_size - P.pool_row) / P.stride_row + 1

/-- `this->output_col_size = ((input_col_size - pool_col) / stride_col) + 1`. -/
def MaxPool2D.output_col_size (P : MaxPool2D) : Nat :=
  (P.input_col_size - P.pool_col) / P.stride_col + 1

/-- Flat output index (layers.cpp:219-221). -/
def MaxPool2D.outIdx (P : MaxPool2D) (n m l : Nat) : Nat :=
  n * P.output_row_size * P.output_col_size + m * P.output_col_size + l

/-- Flat input index (layers.cpp:226-228). -/
def MaxPool2D.inIdx (P : MaxPool2D) (n r c : Nat) : Nat :=
  n * P.input_row_size * P.input_col_size + r * P.input_col_size + c

/-- The window scan of `MaxPooling2DLayer::forward` (layers.cpp:216-239):
`temp` starts at `-FLT_MAX`; each window element is read into the
`int` variable `input_val` (declared `int input_index, input_val, ...` at
layers.cpp:210), truncating the float toward zero; `temp` is replaced by
`input_val` whenever `input_val > temp`. -/
def MaxPool2D.windowMax (P : MaxPool2D) (input : Nat → ℚ) (n m l : Nat) : ℚ :=
  (List.range P.pool_row).foldl (fun temp j =>
    (List.range P.pool_col).foldl (fun temp i =>
      let input_val : ℤ :=
        ctrunc (input (P.inIdx n (m * P.stride_row + j) (l * P.stride_col + i)))
      if (input_val : ℚ) > temp then (input_val : ℚ) else temp) temp)
    (-fltMax)

/-- `MaxPooling2DLayer::forward` (layers.cpp:207-246): for every channel and
output cell, store the window scan's result. -/
def MaxPool2D.forward (P : MaxPool2D) (input output : Nat → ℚ) : Nat → ℚ :=
  (List.range P.input_channel_size).foldl (fun buf n =>
    (List.range P.output_row_size).foldl (fun buf m =>
      (List.range P.output_col_size).foldl (fun buf l =>
        upd buf (P.outIdx n m l) (P.windowMax input n m l)) buf) buf)
    output

/-- A 2×2 pool with stride 2 over a 2×2 single-channel input (one window). -/
def poolC5 : MaxPool2D :=
  { input_channel_size := 1
    input_row_size := 2
    input_col_size := 2
    pool_row := 2
    pool_col := 2
    stride_row := 2
    stride_col := 2
    padding := PADDING_VALID }

/-- Claim C5: the spec requires each output cell to be the exact maximum of
the float values in its window.  The source routes every window value
through the `int` variable `input_val`, truncating toward zero: on a window
of four `1/2`s the code stores `0`, not the exact maximum `1/2`. -/
theorem c5_maxpool_truncates_to_int :
    poolC5.forward (fun _ => 1/2) (fun _ => -3) 0 = 0 ∧
    (0 : ℚ) ≠ 1/2 := by
  constructor
  · norm_num [MaxPool2D.forward, MaxPool2D.windowMax, MaxPool2D.outIdx,
      MaxPool2D.inIdx, MaxPool2D.output_row_size, MaxPool2D.output_col_size,
      poolC5, PADDING_VALID, fltMax, ctrunc, List.range_succ,
      List.foldl_append, upd]
  · norm_num

/-- Little-endian `uint32_t` read from a byte blob (`*(uint32_t *)p`). -/
def readU32 (blob : Nat → Nat) (off : Nat) : Nat :=
  blob off % 256 + 256 * (blob (off + 1) % 256)
    + 65536 * (blob (off + 2) % 256) + 16777216 * (blob (off + 3) % 256)

/-- `FULLY_CONNECTED_LAYER` tag (Layers/src/layers.h). -/
def FULLY_CONNECTED_LAYER : Nat := 0

/-- `RELU_LAYER` tag (Layers/src/layers.h). -/
def RELU_LAYER : Nat := 1

/-- A layer record as decoded by `Sequential::Sequential`; the weight, bias
and shape views are byte offsets into the blob (the source stores raw
pointers into `model_arr`). -/
inductive DecodedLayer where
  | fullyConnected (input_size output_size weightOff biasOff : Nat)
  | relu (input_dim shapeOff : Nat)
deriving DecidableEq

/-- The record-parsing `while` loop of `Sequential::Sequential`
(Models/src/models.cpp:39-79).  `cursor` is the byte offset of `model_arr`
from `start`; `i` is the slot counter; `graph` is the caller's layer array
(a slot is `none` until the loop stores into it).  `fuel` bounds the
recursion: every iteration advances `cursor` by at least 4, so
`model_len + 1` iterations always reach the loop exit, and `SequentialModel.build`
below supplies exactly that.  The tag read `*model_arr` is a single byte in
the source.  In the `default:` case the loop body does nothing — the cursor
has still advanced 4 bytes, `i` is still incremented, and parsing
continues. -/
def parseLayers (blob : Nat → Nat) (model_len : Nat) :
    Nat → Nat → Nat → (Nat → Option DecodedLayer) →
      (Nat → Option DecodedLayer) × Nat
  | 0, _, i, graph => (graph, i)
  | fuel + 1, cursor, i, graph =>
    if cursor < model_len then
      let layer_type := blob cursor % 256
      if layer_type = FULLY_CONNECTED_LAYER then
        let input_size := readU32 blob (cursor + 4)
        let output_size := readU32 blob (cursor + 8)
        let weightOff := cursor + 12
        let biasOff := cursor + 12 + 4 * (input_size * output_size)
        parseLayers blob model_len fuel (biasOff + 4 * output_size) (i + 1)
          (fun k => if k = i then
              some (DecodedLayer.fullyConnected input_size output_size weightOff biasOff)
            else graph k)
      else if layer_type = RELU_LAYER then
        let input_dim := readU32 blob (cursor + 4)
        let shapeOff := cursor + 8
        parseLayers blob model_len fuel (shapeOff + 4 * input_dim) (i + 1)
          (fun k => if k = i then some (DecodedLayer.relu input_dim shapeOff)
            else graph k)
      else
        parseLayers blob model_len fuel (cursor + 4) (i + 1) graph
    else (graph, i)

/-- The field state of a `Sequential` object (Models/src/models.h) after its
constructor returns.  `none` marks a member the constructor never assigned
(the C++ object leaves it holding indeterminate garbage).  `input` and
`output` are the designated read/write locations as byte-free offsets into
the workspace (`input = workspace` ↦ offset 0,
`output = workspace + workspace_size/2` ↦ offset `workspace_size/2`).
A slot of a `some` graph that is still `none` was never stored to by the
parse loop (in C++: an indeterminate `Layer*`).  Note the type has no error
constructor: the constructor cannot signal failure. -/
structure SequentialModel where
  graph : Option (Nat → Option DecodedLayer)
  layer_len : Option Nat
  workspace_size : Option Nat
  input : Option Nat
  output : Option Nat

/-- `Sequential::Sequential` (Models/src/models.cpp:17-84).
First check: `layer_len < *(uint32_t*)model_arr` → bare `return` with no
member assigned.  Second check:
`workspace_size < (*(uint32_t*)(model_arr+4) * 2)` (a `uint32_t` product,
hence the explicit wrap) → bare `return` after `graph`/`layer_len` were
assigned but before the parse loop ran.  Otherwise the loop fills the graph
and lines 81-83 designate `input = workspace` and, from the parity of the
record count `i`, `output` (`DLAI_EVEN = 0`: even → `workspace`, odd →
`workspace + workspace_size/2`). -/
def SequentialModel.build (blob : Nat → Nat) (model_len layer_len workspace_size : Nat) :
    SequentialModel :=
  if layer_len < readU32 blob 0 then
    ⟨none, none, none, none, none⟩
  else if workspace_size < readU32 blob 4 * 2 % 2 ^ 32 then
    ⟨some (fun _ => none), some layer_len, none, none, none⟩
  else
    let pr := parseLayers blob model_len (model_len + 1) 8 0 (fun _ => none)
    ⟨some pr.1, some layer_len, some workspace_size, some 0,
      some (if pr.2 % 2 = 0 then 0 else workspace_size / 2)⟩

/-- The input-offset arm of the `switch (i % 2)` in `Sequential::predict`
(Models/src/models.cpp:101-110): even layer index reads the front half,
odd the back half. -/
def inputOffset (i workspace_size : Nat) : Nat :=
  if i % 2 = 0 then 0 else workspace_size / 2

/-- The output-offset arm of the same `switch`: the opposite half. -/
def outputOffset (i workspace_size : Nat) : Nat :=
  if i % 2 = 0 then workspace_size / 2 else 0

/-- `Sequential::predict` (Models/src/models.cpp:95-125), as the trace of
`forward` invocations it makes: the loop runs `i` from `0` to
`this->layer_len - 1` — the stored `layer_len`, which the constructor set
to the caller's graph-capacity argument — and calls
`graph[i]->forward(workspace + inputOffset, workspace + outputOffset)`.
Each trace entry is `(slot index, input offset, output offset)`.  `none`
when the members the loop reads were never assigned (reading them in C++ is
undefined). -/
def SequentialModel.predictTrace (S : SequentialModel) : Option (List (Nat × Nat × Nat)) :=
  match S.layer_len, S.workspace_size with
  | some cap, some ws =>
    some ((List.range cap).map (fun i => (i, inputOffset i ws, outputOffset i ws)))
  | _, _ => none

/-- Blob whose header declares 5 layers (capacity below will be 2). -/
def blobTooMany : Nat → Nat := fun off => if off = 0 then 5 else 0

/-- Blob declaring 1 layer and a minimum workspace of 3 floats
(capacity below will be 4 < 3 × 2). -/
def blobWsSmall : Nat → Nat :=
  fun off => if off = 0 then 1 else if off = 4 then 3 else 0

/-- Claim C3: the spec requires the two header validations to fail with the
distinct errors `TooManyLayers` / `WorkspaceTooSmall` and to leave no
partially constructed model.  The source instead executes a bare `return`:
with 5 declared layers against capacity 2 the constructor returns an object
with every member unassigned, and with declared workspace 3 against
capacity 4 it returns a half-constructed object — `graph` and `layer_len`
assigned, the graph never populated, no output designated.  `Sequential`
carries no error value of any kind (see its definition). -/
theorem c3_validation_failures_are_silent :
    (SequentialModel.build blobTooMany 8 2 100).graph = none ∧
    (SequentialModel.build blobTooMany 8 2 100).layer_len = none ∧
    (SequentialModel.build blobTooMany 8 2 100).output = none ∧
    (SequentialModel.build blobWsSmall 8 10 4).graph.isSome = true ∧
    (SequentialModel.build blobWsSmall 8 10 4).layer_len = some 10 ∧
    (SequentialModel.build blobWsSmall 8 10 4).graph.map (fun g => g 0) = some none ∧
    (SequentialModel.build blobWsSmall 8 10 4).output = none :=
  ⟨rfl, by decide, by decide, by decide, by decide, by decide, by decide⟩

/-- Blob with a 2-layer header whose first record has the unrecognized tag
7 and whose second record is a well-formed ReLU record (tag 1 at offset 12,
`input_dim = 1` at offset 16, shape word at offset 20); 24 bytes long. -/
def blobUnknown : Nat → Nat :=
  fun off =>
    if off = 0 then 2 else if off = 8 then 7
    else if off = 12 then 1 else if off = 16 then 1 else 0

/-- Claim C6: the spec requires an unrecognized type tag to abort decoding
with `UnknownLayerTag` and never to continue parsing.  The source's
`default:` case does nothing: the cursor moves 4 bytes past the unknown
tag, slot 0 is left unfilled, and the loop keeps parsing — here it decodes
the following bytes as a ReLU record into slot 1 and completes decoding,
designating an output half as if nothing were wrong. -/
theorem c6_unknown_tag_skipped_not_aborted :
    (SequentialModel.build blobUnknown 24 10 100).graph.map (fun g => g 0) = some none ∧
    (SequentialModel.build blobUnknown 24 10 100).graph.map (fun g => g 1)
      = some (some (DecodedLayer.relu 1 20)) ∧
    (SequentialModel.build blobUnknown 24 10 100).output = some 0 := by
  refine ⟨?_, ?_, ?_⟩ <;> decide

/-- Claim C8: whenever the constructor reaches the end (it designated an
output location at all), the designated output offset is the front half
(offset 0) when the number of parsed records is even, and the back half
(offset `workspace_size / 2`) when it is odd. -/
theorem c8_output_half_by_layer_count_parity (blob : Nat → Nat)
    (model_len layer_len workspace_size : Nat)
    (h : (SequentialModel.build blob model_len layer_len workspace_size).output ≠ none) :
    (SequentialModel.build blob model_len layer_len workspace_size).output
      = some (if (parseLayers blob model_len (model_len + 1) 8 0 (fun _ => none)).2 % 2 = 0
              then 0 else workspace_size / 2) := by
  unfold SequentialModel.build at h ⊢
  by_cases h1 : layer_len < readU32 blob 0
  · rw [if_pos h1] at h; exact absurd rfl h
  · rw [if_neg h1] at h ⊢
    by_cases h2 : workspace_size < readU32 blob 4 * 2 % 2 ^ 32
    · rw [if_pos h2] at h; exact absurd rfl h
    · rw [if_neg h2]

/-- Blob holding two well-formed ReLU records (tags at offsets 8 and 20,
`input_dim = 1` each); 32 bytes long: an even layer count. -/
def blobTwoRelu : Nat → Nat :=
  fun off =>
    if off = 0 then 2 else if off = 8 then 1 else if off = 12 then 1
    else if off = 20 then 1 else if off = 24 then 1 else 0

/-- Blob holding one well-formed ReLU record; 20 bytes long: an odd layer
count. -/
def blobOneRelu : Nat → Nat :=
  fun off =>
    if off = 0 then 1 else if off = 8 then 1 else if off = 12 then 1 else 0

/-- Witness for C8, at both parities: the 2-record blob designates the
front half (offset 0), the 1-record blob the back half (offset 50 of a
100-float workspace). -/
theorem c8_output_half_by_layer_count_parity_witness :
    ((SequentialModel.build blobTwoRelu 32 10 100).output ≠ none ∧
      (SequentialModel.build blobTwoRelu 32 10 100).output
        = some (if (parseLayers blobTwoRelu 32 33 8 0 (fun _ => none)).2 % 2 = 0
                then 0 else 100 / 2)) ∧
    ((SequentialModel.build blobOneRelu 20 10 100).output ≠ none ∧
      (SequentialModel.build blobOneRelu 20 10 100).output
        = some (if (parseLayers blobOneRelu 20 21 8 0 (fun _ => none)).2 % 2 = 0
                then 0 else 100 / 2)) :=
  ⟨⟨by decide, c8_output_half_by_layer_count_parity blobTwoRelu 32 10 100 (by decide)⟩,
   ⟨by decide, c8_output_half_by_layer_count_parity blobOneRelu 20 10 100 (by decide)⟩⟩

/-- Claim C9: the spec says `predict` invokes `forward` exactly once per
decoded layer, slots `0..N-1` only.  The source loops
`for (i = 0; i < this->layer_len; i++)` where `layer_len` is the caller's
graph-capacity argument, not the decoded record count: decoding a 1-record
blob with capacity 2 stores `layer_len = 2`, leaves slot 1 undecoded, and
the predict loop nevertheless visits slot 1 (with the back half as its
input).  In C++ that call dereferences an indeterminate `Layer*`. -/
theorem c9_predict_iterates_graph_capacity :
    (SequentialModel.build blobOneRelu 20 2 100).layer_len = some 2 ∧
    (parseLayers blobOneRelu 20 21 8 0 (fun _ => none)).2 = 1 ∧
    (SequentialModel.build blobOneRelu 20 2 100).graph.map (fun g => g 1) = some none ∧
    (SequentialModel.build blobOneRelu 20 2 100).predictTrace
      = some [(0, 0, 50), (1, 50, 0)] := by
  refine ⟨?_, ?_, ?_, ?_⟩ <;> decide

/-- Claim C10: whenever the constructor reaches the end, the designated
input write-location is offset 0 — the start of the workspace (front half),
regardless of the layer-count parity — and layer 0 of the executor reads
its input at offset 0 of the workspace for every workspace size. -/
theorem c10_input_location_always_front (blob : Nat → Nat)
    (model_len layer_len workspace_size : Nat)
    (h : (SequentialModel.build blob model_len layer_len workspace_size).input ≠ none) :
    (SequentialModel.build blob model_len layer_len workspace_size).input = some 0 ∧
    ∀ ws : Nat, inputOffset 0 ws = 0 := by
  refine ⟨?_, fun ws => rfl⟩
  unfold SequentialModel.build at h ⊢
  by_cases h1 : layer_len < readU32 blob 0
  · rw [if_pos h1] at h; exact absurd rfl h
  · rw [if_neg h1] at h ⊢
    by_cases h2 : workspace_size < readU32 blob 4 * 2 % 2 ^ 32
    · rw [if_pos h2] at h; exact absurd rfl h
    · rw [if_neg h2]

/-- Witness for C10: the 2-record blob decodes to completion and its input
location is offset 0. -/
theorem c10_input_location_always_front_witness :
    (SequentialModel.build blobTwoRelu 32 10 100).input ≠ none ∧
    ((SequentialModel.build blobTwoRelu 32 10 100).input = some 0 ∧
      ∀ ws : Nat, inputOffset 0 ws = 0) :=
  ⟨by decide, c10_input_location_always_front blobTwoRelu 32 10 100 (by decide)⟩
